import Mathlib

/-!
Verification of the `aws-resource-id` crate.

The development shallowly embeds the two components of the crate:

* the general resource-ID engine of `src/general.rs`: a validating
  constructor (`TryFrom<&str>`, called `tryFrom` here) parametrised by a
  resource kind (the Rust macro `impl_resource_id!` stamps one nominal type
  per kind; here a kind is a record holding the short type name and the
  kind's constant `PREFIX` string, called `pfx`), a `Display`
  implementation (`display`), the derived ordering on the stored unique
  part, and the structured parse errors with their rendered messages;
* the region enumeration of `src/region.rs`: the 29-variant `AwsRegionId`
  enum, its exact-match `TryFrom<&str>` (`regionTryFrom`) and the total
  reverse lookup `From<AwsRegionId> for &'static str` (`regionToStr`).

Rust strings are modelled as lists of unicode scalar values (`List Char`,
the same notion as Rust `char`).  The byte-level operations of the source
(`starts_with`, slicing at `PREFIX.len()`, `id.len()`) coincide with the
character-level ones used here because every kind's `PREFIX` is pure ASCII
and the suffix is checked to be ASCII before its length is ever used; the
stored `[u8; 8]` / `[u8; 17]` arrays are modelled as lists of byte values
(`List Nat`, each < 256).
-/

set_option maxHeartbeats 1000000

deriving instance DecidableEq for Except

/-- Rust strings / string slices, as their list of unicode scalar values. -/
abbrev Str := List Char

/-- Rust `u8::is_ascii_alphanumeric`: the byte is one of `0-9` (48-57),
`A-Z` (65-90) or `a-z` (97-122). -/
def byteIsAsciiAlphanumeric (b : Nat) : Bool :=
  (48 ≤ b && b ≤ 57) || (65 ≤ b && b ≤ 90) || (97 ≤ b && b ≤ 122)

/-- Rust `char::is_ascii_alphanumeric`, the check used by `try_from` in
`src/general.rs` (line 95) on every character of the suffix. -/
def isAsciiAlphanumeric (c : Char) : Bool :=
  byteIsAsciiAlphanumeric c.toNat

/-- `GeneralResourceErrorDetail` of `src/general.rs` (lines 42-53). -/
inductive GeneralResourceErrorDetail where
  | WrongPrefix (expected : Str)
  | IdLength (actual : Nat)
  | NonAsciiAlphanumeric
deriving DecidableEq

/-- `GeneralResourceError` of `src/general.rs` (lines 29-38): the target
type's short name, the offending input verbatim, and the failed
sub-condition. -/
structure GeneralResourceError where
  targetType : Str
  input : Str
  errorDetail : GeneralResourceErrorDetail
deriving DecidableEq

/-- `UniquePart` of `src/general.rs` (lines 56-60): the unique part stored
as a fixed 8- or 17-byte array; here the arrays are byte lists (the length
invariant is proved for every reachable value, see `tryFrom_ok_wf`). -/
inductive UniquePart where
  | C8 (bytes : List Nat)
  | C17 (bytes : List Nat)
deriving DecidableEq

/-- `UniquePart::as_slice` of `src/general.rs` (lines 62-69). -/
def UniquePart.asSlice : UniquePart → List Nat
  | .C8 x => x
  | .C17 x => x

/-- One instantiation of the `impl_resource_id!` macro of `src/general.rs`:
the short type name (what `short_type_name::<T>()` returns, line 228-231)
and the associated constant `PREFIX` (line 78), called `pfx` here. -/
structure ResourceKind where
  shortName : Str
  pfx : Str
deriving DecidableEq

/-- The per-kind wrapper struct `pub struct $type(UniquePart)` generated by
`impl_resource_id!` (line 75). -/
structure ResourceId where
  uniquePart : UniquePart
deriving DecidableEq

/-- `TryFrom<&str>::try_from` generated by `impl_resource_id!`
(`src/general.rs` lines 84-122): check the prefix, then that the suffix is
ASCII-alphanumeric, then that its length is 8 or 17, and store the suffix
bytes.  The source returns early on each failed check; here the guards are
the same checks with the branches flipped to positive form, and the
source's local binding `id = &s[PREFIX.len()..]` is written out as
`s.drop k.pfx.length` at each use. -/
def tryFrom (k : ResourceKind) (s : Str) : Except GeneralResourceError ResourceId :=
  if s.take k.pfx.length = k.pfx then
    if (s.drop k.pfx.length).all isAsciiAlphanumeric then
      if (s.drop k.pfx.length).length = 8 then
        .ok ⟨ .C8 ((s.drop k.pfx.length).map Char.toNat)⟩
      else if (s.drop k.pfx.length).length = 17 then
        .ok ⟨ .C17 ((s.drop k.pfx.length).map Char.toNat)⟩
      else
        .error ⟨k.shortName, s, .IdLength (s.drop k.pfx.length).length⟩
    else
      .error ⟨k.shortName, s, .NonAsciiAlphanumeric⟩
  else
    .error ⟨k.shortName, s, .WrongPrefix k.pfx⟩

/-- `TryFrom<String>` generated by `impl_resource_id!` (lines 125-131):
delegates to the `&str` implementation via `as_str`. -/
def tryFromString (k : ResourceKind) (s : Str) : Except GeneralResourceError ResourceId :=
  tryFrom k s

/-- `TryFrom<&String>` generated by `impl_resource_id!` (lines 133-139). -/
def tryFromRefString (k : ResourceKind) (s : Str) : Except GeneralResourceError ResourceId :=
  tryFrom k s

/-- `FromStr::from_str` generated by `impl_resource_id!` (lines 141-147). -/
def fromStr (k : ResourceKind) (s : Str) : Except GeneralResourceError ResourceId :=
  tryFrom k s

/-- Model of `std::str::from_utf8(bytes).unwrap_or_default()` as used by the
generated `Display` implementation (line 155).  It is exact on ASCII byte
sequences — which covers every value reachable through `tryFrom`, whose
stored bytes are ASCII-alphanumeric (`tryFrom_ok_wf`) — and conservatively
returns the default empty string otherwise. -/
def fromUtf8OrDefault (bs : List Nat) : Str :=
  if bs.all (fun b => b < 128) then bs.map Char.ofNat else []

/-- `fmt::Display` generated by `impl_resource_id!` (lines 149-158): the
kind's `PREFIX` followed by the stored bytes rendered as text. -/
def display (k : ResourceKind) (r : ResourceId) : Str :=
  k.pfx ++ fromUtf8OrDefault r.uniquePart.asSlice

/-- Decimal rendering of a `usize`, for the `IdLength` message. -/
def natToStr (n : Nat) : Str :=
  (Nat.repr n).data

/-- Rendered message of each `GeneralResourceErrorDetail` variant, from the
`thiserror` attributes of `src/general.rs` (lines 45, 48, 51). -/
def GeneralResourceErrorDetail.message : GeneralResourceErrorDetail → Str
  | .WrongPrefix expected =>
      ("incorrect prefix, expected \"").data ++ expected ++ ("\"").data
  | .IdLength actual =>
      ("the unique part must be 8 or 17, not ").data ++ natToStr actual
        ++ (" characters long").data
  | .NonAsciiAlphanumeric =>
      ("the unique part contains non ascii alphanumeric characters").data

/-- Rendered message of `GeneralResourceError`, from the `thiserror`
attribute of `src/general.rs` (line 30). -/
def GeneralResourceError.message (e : GeneralResourceError) : Str :=
  ("failed to initialize ").data ++ e.targetType ++ (" from \"").data
    ++ e.input ++ ("\": ").data ++ e.errorDetail.message

/-- Lexicographic comparison of byte sequences: the comparison Rust derives
for `[u8; N]` arrays (element-wise, and for the equal-length arrays stored
here the length tie-breaker never fires). -/
def lexCmp : List Nat → List Nat → Ordering
  | [], [] => .eq
  | [], _ :: _ => .lt
  | _ :: _, [] => .gt
  | a :: as, b :: bs =>
      if a < b then .lt else if b < a then .gt else lexCmp as bs

/-- The `Ord` Rust derives for `enum UniquePart` (line 56): variants compare
by declaration order first (`C8` before `C17`), then by their array
contents.  The derived `Ord` of the generated one-field wrapper struct
(line 74) is the same comparison. -/
def UniquePart.cmp : UniquePart → UniquePart → Ordering
  | .C8 a, .C8 b => lexCmp a b
  | .C8 _, .C17 _ => .lt
  | .C17 _, .C8 _ => .gt
  | .C17 a, .C17 b => lexCmp a b

/-- Stated from the spec's words (spec §3, "Ordering"): same-length unique
parts compare lexicographically byte-wise; unique parts of different
lengths compare by length (the 8-byte variant before the 17-byte one),
regardless of content. -/
def orderingSpec (a b : UniquePart) : Ordering :=
  if a.asSlice.length = b.asSlice.length then lexCmp a.asSlice b.asSlice
  else if a.asSlice.length < b.asSlice.length then .lt
  else .gt

/-- The invariant of spec §3: the stored unique part is exactly 8 or 17
bytes long (matching its variant) and every byte is ASCII alphanumeric. -/
def UniquePart.WF : UniquePart → Prop
  | .C8 bs => bs.length = 8 ∧ bs.all byteIsAsciiAlphanumeric = true
  | .C17 bs => bs.length = 17 ∧ bs.all byteIsAsciiAlphanumeric = true

/-- The 28 kinds instantiated by `impl_resource_id!` in `src/general.rs`
(lines 247-294), with their short type names and `PREFIX` constants. -/
def AwsNetworkAclId : ResourceKind := ⟨("AwsNetworkAclId").data, ("acl-").data⟩

/-- AWS AMI kind, `impl_resource_id!(AwsAmiId, "ami-", ...)`. -/
def AwsAmiId : ResourceKind := ⟨("AwsAmiId").data, ("ami-").data⟩

/-- AWS Customer Gateway kind. -/
def AwsCustomerGatewayId : ResourceKind := ⟨("AwsCustomerGatewayId").data, ("cgw-").data⟩

/-- AWS Elastic IP kind. -/
def AwsElasticIpId : ResourceKind := ⟨("AwsElasticIpId").data, ("eipalloc-").data⟩

/-- AWS EFS File System kind. -/
def AwsEfsFileSystemId : ResourceKind := ⟨("AwsEfsFileSystemId").data, ("fs-").data⟩

/-- AWS EFS Mount Target kind. -/
def AwsEfsMountTargetId : ResourceKind := ⟨("AwsEfsMountTargetId").data, ("fsmt-").data⟩

/-- AWS CloudFormation Stack kind. -/
def AwsCloudFormationStackId : ResourceKind := ⟨("AwsCloudFormationStackId").data, ("stack-").data⟩

/-- AWS Elastic Beanstalk Environment kind. -/
def AwsElasticBeanstalkEnvironmentId : ResourceKind := ⟨("AwsElasticBeanstalkEnvironmentId").data, ("e-").data⟩

/-- AWS EC2 Instance kind. -/
def AwsInstanceId : ResourceKind := ⟨("AwsInstanceId").data, ("i-").data⟩

/-- AWS Internet Gateway kind. -/
def AwsInternetGatewayId : ResourceKind := ⟨("AwsInternetGatewayId").data, ("igw-").data⟩

/-- AWS Key Pair kind. -/
def AwsKeyPairId : ResourceKind := ⟨("AwsKeyPairId").data, ("key-").data⟩

/-- AWS Elastic Load Balancer kind. -/
def AwsLoadBalancerId : ResourceKind := ⟨("AwsLoadBalancerId").data, ("elbv2-").data⟩

/-- AWS NAT Gateway kind. -/
def AwsNatGatewayId : ResourceKind := ⟨("AwsNatGatewayId").data, ("nat-").data⟩

/-- AWS Network Interface kind. -/
def AwsNetworkInterfaceId : ResourceKind := ⟨("AwsNetworkInterfaceId").data, ("eni-").data⟩

/-- AWS Placement Group kind. -/
def AwsPlacementGroupId : ResourceKind := ⟨("AwsPlacementGroupId").data, ("pg-").data⟩

/-- AWS RDS Instance kind. -/
def AwsRdsInstanceId : ResourceKind := ⟨("AwsRdsInstanceId").data, ("db-").data⟩

/-- AWS Redshift Cluster kind. -/
def AwsRedshiftClusterId : ResourceKind := ⟨("AwsRedshiftClusterId").data, ("redshift-").data⟩

/-- AWS Route Table kind. -/
def AwsRouteTableId : ResourceKind := ⟨("AwsRouteTableId").data, ("rtb-").data⟩

/-- AWS Security Group kind. -/
def AwsSecurityGroupId : ResourceKind := ⟨("AwsSecurityGroupId").data, ("sg-").data⟩

/-- AWS EBS Snapshot kind. -/
def AwsSnapshotId : ResourceKind := ⟨("AwsSnapshotId").data, ("snap-").data⟩

/-- AWS VPC Subnet kind. -/
def AwsSubnetId : ResourceKind := ⟨("AwsSubnetId").data, ("subnet-").data⟩

/-- AWS Target Group kind. -/
def AwsTargetGroupId : ResourceKind := ⟨("AwsTargetGroupId").data, ("tg-").data⟩

/-- AWS Transit Gateway Attachment kind. -/
def AwsTransitGatewayAttachmentId : ResourceKind := ⟨("AwsTransitGatewayAttachmentId").data, ("tgw-attach-").data⟩

/-- AWS Transit Gateway kind. -/
def AwsTransitGatewayId : ResourceKind := ⟨("AwsTransitGatewayId").data, ("tgw-").data⟩

/-- AWS EBS Volume kind. -/
def AwsVolumeId : ResourceKind := ⟨("AwsVolumeId").data, ("vol-").data⟩

/-- AWS VPC kind. -/
def AwsVpcId : ResourceKind := ⟨("AwsVpcId").data, ("vpc-").data⟩

/-- AWS VPN Connection kind. -/
def AwsVpnConnectionId : ResourceKind := ⟨("AwsVpnConnectionId").data, ("vpn-").data⟩

/-- AWS VPN Gateway kind. -/
def AwsVpnGatewayId : ResourceKind := ⟨("AwsVpnGatewayId").data, ("vgw-").data⟩

/-- All 28 resource kinds defined in `src/general.rs` (lines 247-294). -/
def allKinds : List ResourceKind :=
  [AwsNetworkAclId, AwsAmiId, AwsCustomerGatewayId, AwsElasticIpId,
   AwsEfsFileSystemId, AwsEfsMountTargetId, AwsCloudFormationStackId,
   AwsElasticBeanstalkEnvironmentId, AwsInstanceId, AwsInternetGatewayId,
   AwsKeyPairId, AwsLoadBalancerId, AwsNatGatewayId, AwsNetworkInterfaceId,
   AwsPlacementGroupId, AwsRdsInstanceId, AwsRedshiftClusterId,
   AwsRouteTableId, AwsSecurityGroupId, AwsSnapshotId, AwsSubnetId,
   AwsTargetGroupId, AwsTransitGatewayAttachmentId, AwsTransitGatewayId,
   AwsVolumeId, AwsVpcId, AwsVpnConnectionId, AwsVpnGatewayId]

/-- An ASCII-alphanumeric byte value is below 128. -/
theorem byteIsAsciiAlphanumeric_lt_128 {b : Nat}
    (h : byteIsAsciiAlphanumeric b = true) : b < 128 := by
  simp [byteIsAsciiAlphanumeric] at h
  omega

/-- Unfolding lemma: wrong prefix. -/
theorem tryFrom_wrongPre {k : ResourceKind} {s : Str}
    (h1 : s.take k.pfx.length ≠ k.pfx) :
    tryFrom k s = .error ⟨k.shortName, s, .WrongPrefix k.pfx⟩ := by
  unfold tryFrom
  rw [if_neg h1]

/-- Unfolding lemma: correct prefix but a non-ASCII-alphanumeric character
in the suffix. -/
theorem tryFrom_nonAscii {k : ResourceKind} {s : Str}
    (h1 : s.take k.pfx.length = k.pfx)
    (h2 : ¬ (s.drop k.pfx.length).all isAsciiAlphanumeric = true) :
    tryFrom k s = .error ⟨k.shortName, s, .NonAsciiAlphanumeric⟩ := by
  unfold tryFrom
  rw [if_pos h1, if_neg h2]

/-- Unfolding lemma: correct prefix, clean suffix, bad length. -/
theorem tryFrom_badLen {k : ResourceKind} {s : Str}
    (h1 : s.take k.pfx.length = k.pfx)
    (h2 : (s.drop k.pfx.length).all isAsciiAlphanumeric = true)
    (h3 : (s.drop k.pfx.length).length ≠ 8)
    (h4 : (s.drop k.pfx.length).length ≠ 17) :
    tryFrom k s = .error ⟨k.shortName, s, .IdLength (s.drop k.pfx.length).length⟩ := by
  unfold tryFrom
  rw [if_pos h1, if_pos h2, if_neg h3, if_neg h4]

/-- Unfolding lemma: success with an 8-character suffix. -/
theorem tryFrom_ok8 {k : ResourceKind} {s : Str}
    (h1 : s.take k.pfx.length = k.pfx)
    (h2 : (s.drop k.pfx.length).all isAsciiAlphanumeric = true)
    (h3 : (s.drop k.pfx.length).length = 8) :
    tryFrom k s = .ok ⟨ .C8 ((s.drop k.pfx.length).map Char.toNat)⟩ := by
  unfold tryFrom
  rw [if_pos h1, if_pos h2, if_pos h3]

/-- Unfolding lemma: success with a 17-character suffix. -/
theorem tryFrom_ok17 {k : ResourceKind} {s : Str}
    (h1 : s.take k.pfx.length = k.pfx)
    (h2 : (s.drop k.pfx.length).all isAsciiAlphanumeric = true)
    (h3 : (s.drop k.pfx.length).length = 17) :
    tryFrom k s = .ok ⟨ .C17 ((s.drop k.pfx.length).map Char.toNat)⟩ := by
  unfold tryFrom
  rw [if_pos h1, if_pos h2]
  rw [if_neg (by omega), if_pos h3]

/-- Shape of every successful parse: the prefix matched, the suffix is
ASCII-alphanumeric, and the result stores the suffix bytes in the variant
matching the suffix length. -/
theorem tryFrom_ok_shape {k : ResourceKind} {s : Str} {r : ResourceId}
    (h : tryFrom k s = .ok r) :
    s.take k.pfx.length = k.pfx
      ∧ (s.drop k.pfx.length).all isAsciiAlphanumeric = true
      ∧ (((s.drop k.pfx.length).length = 8
            ∧ r = ⟨ .C8 ((s.drop k.pfx.length).map Char.toNat)⟩)
         ∨ ((s.drop k.pfx.length).length = 17
            ∧ r = ⟨ .C17 ((s.drop k.pfx.length).map Char.toNat)⟩)) := by
  unfold tryFrom at h
  split_ifs at h with h1 h2 h3 h4 <;>
      injection h with hr <;>
    first
      | exact ⟨h1, h2, Or.inl ⟨h3, hr.symm⟩⟩
      | exact ⟨h1, h2, Or.inr ⟨h4, hr.symm⟩⟩

/-- Shape of every failed parse: the error carries the kind's short name,
the input verbatim, and the detail of the first failed check. -/
theorem tryFrom_error_shape {k : ResourceKind} {s : Str} {e : GeneralResourceError}
    (h : tryFrom k s = .error e) :
    e.targetType = k.shortName ∧ e.input = s
      ∧ (e.errorDetail = .WrongPrefix k.pfx
         ∨ e.errorDetail = .NonAsciiAlphanumeric
         ∨ e.errorDetail = .IdLength (s.drop k.pfx.length).length) := by
  unfold tryFrom at h
  split_ifs at h with h1 h2 h3 h4 <;>
      injection h with hr <;>
      subst hr <;>
    first
      | exact ⟨rfl, rfl, Or.inl rfl⟩
      | exact ⟨rfl, rfl, Or.inr (Or.inl rfl)⟩
      | exact ⟨rfl, rfl, Or.inr (Or.inr rfl)⟩

/-- Rendering the stored bytes of an ASCII-alphanumeric suffix recovers the
suffix: `from_utf8` succeeds on ASCII bytes and decoding inverts
`Char.toNat`. -/
theorem fromUtf8OrDefault_map_toNat {sfx : Str}
    (h : sfx.all isAsciiAlphanumeric = true) :
    fromUtf8OrDefault (sfx.map Char.toNat) = sfx := by
  unfold fromUtf8OrDefault
  rw [if_pos, List.map_map]
  · simp [Function.comp_def, Char.ofNat_toNat]
  · rw [List.all_eq_true]
    intro b hb
    obtain ⟨c, hc, rfl⟩ := List.mem_map.mp hb
    have hall := List.all_eq_true.mp h c hc
    simpa using byteIsAsciiAlphanumeric_lt_128 hall

/-- Format is a right inverse of parse: displaying any successfully parsed
value reproduces the input string. -/
theorem tryFrom_ok_display {k : ResourceKind} {s : Str} {r : ResourceId}
    (h : tryFrom k s = .ok r) : display k r = s := by
  obtain ⟨h1, h2, hcase⟩ := tryFrom_ok_shape h
  have hsplit : k.pfx ++ s.drop k.pfx.length = s := by
    conv_rhs => rw [← List.take_append_drop k.pfx.length s]
    rw [h1]
  rcases hcase with ⟨_, rfl⟩ | ⟨_, rfl⟩ <;>
    simp only [display, UniquePart.asSlice, fromUtf8OrDefault_map_toNat h2, hsplit]

/-- Every value produced by `tryFrom` satisfies the unique-part invariant:
the stored byte list has the length of its variant and every byte is ASCII
alphanumeric. -/
theorem tryFrom_ok_wf {k : ResourceKind} {s : Str} {r : ResourceId}
    (h : tryFrom k s = .ok r) : r.uniquePart.WF := by
  obtain ⟨_, h2, hcase⟩ := tryFrom_ok_shape h
  have hbytes : ((s.drop k.pfx.length).map Char.toNat).all byteIsAsciiAlphanumeric = true := by
    rw [List.all_eq_true]
    intro b hb
    obtain ⟨c, hc, rfl⟩ := List.mem_map.mp hb
    exact List.all_eq_true.mp h2 c hc
  rcases hcase with ⟨hlen, rfl⟩ | ⟨hlen, rfl⟩ <;>
    exact ⟨by simpa using hlen, hbytes⟩

/-- `RegionError` of `src/region.rs` (lines 4-7): carries the offending
input string (the tuple struct's single field). -/
structure RegionError where
  input : Str
deriving DecidableEq

/-- Rendered message of `RegionError`, from its `thiserror` attribute
(`src/region.rs` line 6). -/
def RegionError.message (e : RegionError) : Str :=
  ("Unknown region: ").data ++ e.input

/-- `AwsRegionId` of `src/region.rs` (lines 10-70): the closed 29-variant
region enumeration. -/
inductive AwsRegionId where
  | AfSouth1
  | ApEast1
  | ApNortheast1
  | ApNortheast2
  | ApNortheast3
  | ApSouth1
  | ApSouth2
  | ApSoutheast1
  | ApSoutheast2
  | ApSoutheast3
  | ApSoutheast4
  | CaCentral1
  | CaWest1
  | EuCentral1
  | EuCentral2
  | EuNorth1
  | EuSouth1
  | EuSouth2
  | EuWest1
  | EuWest2
  | EuWest3
  | IlCentral1
  | MeCentral1
  | MeSouth1
  | SaEast1
  | UsEast1
  | UsEast2
  | UsWest1
  | UsWest2
deriving DecidableEq, Fintype

/-- `TryFrom<&str> for AwsRegionId` (`src/region.rs` lines 72-109): exact
match against the 29 canonical strings, in source order; anything else is
an unknown-region error carrying the input verbatim. -/
def regionTryFrom (s : Str) : Except RegionError AwsRegionId :=
  if s = ("af-south-1").data then .ok .AfSouth1
  else if s = ("ap-east-1").data then .ok .ApEast1
  else if s = ("ap-northeast-1").data then .ok .ApNortheast1
  else if s = ("ap-northeast-2").data then .ok .ApNortheast2
  else if s = ("ap-northeast-3").data then .ok .ApNortheast3
  else if s = ("ap-south-1").data then .ok .ApSouth1
  else if s = ("ap-south-2").data then .ok .ApSouth2
  else if s = ("ap-southeast-1").data then .ok .ApSoutheast1
  else if s = ("ap-southeast-2").data then .ok .ApSoutheast2
  else if s = ("ap-southeast-3").data then .ok .ApSoutheast3
  else if s = ("ap-southeast-4").data then .ok .ApSoutheast4
  else if s = ("ca-central-1").data then .ok .CaCentral1
  else if s = ("ca-west-1").data then .ok .CaWest1
  else if s = ("eu-central-1").data then .ok .EuCentral1
  else if s = ("eu-central-2").data then .ok .EuCentral2
  else if s = ("eu-north-1").data then .ok .EuNorth1
  else if s = ("eu-south-1").data then .ok .EuSouth1
  else if s = ("eu-south-2").data then .ok .EuSouth2
  else if s = ("eu-west-1").data then .ok .EuWest1
  else if s = ("eu-west-2").data then .ok .EuWest2
  else if s = ("eu-west-3").data then .ok .EuWest3
  else if s = ("il-central-1").data then .ok .IlCentral1
  else if s = ("me-central-1").data then .ok .MeCentral1
  else if s = ("me-south-1").data then .ok .MeSouth1
  else if s = ("sa-east-1").data then .ok .SaEast1
  else if s = ("us-east-1").data then .ok .UsEast1
  else if s = ("us-east-2").data then .ok .UsEast2
  else if s = ("us-west-1").data then .ok .UsWest1
  else if s = ("us-west-2").data then .ok .UsWest2
  else .error ⟨s⟩

/-- `From<AwsRegionId> for &'static str` (`src/region.rs` lines 111-145):
the total reverse table lookup, also what `Display` and `as_ref` render. -/
def regionToStr : AwsRegionId → Str
  | .AfSouth1 => ("af-south-1").data
  | .ApEast1 => ("ap-east-1").data
  | .ApNortheast1 => ("ap-northeast-1").data
  | .ApNortheast2 => ("ap-northeast-2").data
  | .ApNortheast3 => ("ap-northeast-3").data
  | .ApSouth1 => ("ap-south-1").data
  | .ApSouth2 => ("ap-south-2").data
  | .ApSoutheast1 => ("ap-southeast-1").data
  | .ApSoutheast2 => ("ap-southeast-2").data
  | .ApSoutheast3 => ("ap-southeast-3").data
  | .ApSoutheast4 => ("ap-southeast-4").data
  | .CaCentral1 => ("ca-central-1").data
  | .CaWest1 => ("ca-west-1").data
  | .EuCentral1 => ("eu-central-1").data
  | .EuCentral2 => ("eu-central-2").data
  | .EuNorth1 => ("eu-north-1").data
  | .EuSouth1 => ("eu-south-1").data
  | .EuSouth2 => ("eu-south-2").data
  | .EuWest1 => ("eu-west-1").data
  | .EuWest2 => ("eu-west-2").data
  | .EuWest3 => ("eu-west-3").data
  | .IlCentral1 => ("il-central-1").data
  | .MeCentral1 => ("me-central-1").data
  | .MeSouth1 => ("me-south-1").data
  | .SaEast1 => ("sa-east-1").data
  | .UsEast1 => ("us-east-1").data
  | .UsEast2 => ("us-east-2").data
  | .UsWest1 => ("us-west-1").data
  | .UsWest2 => ("us-west-2").data

/-- The 29 canonical region strings, in the order of the match arms of
`TryFrom<&str> for AwsRegionId` (spec §4.2's table). -/
def allRegionStrs : List Str :=
  [("af-south-1").data, ("ap-east-1").data, ("ap-northeast-1").data,
   ("ap-northeast-2").data, ("ap-northeast-3").data, ("ap-south-1").data,
   ("ap-south-2").data, ("ap-southeast-1").data, ("ap-southeast-2").data,
   ("ap-southeast-3").data, ("ap-southeast-4").data, ("ca-central-1").data,
   ("ca-west-1").data, ("eu-central-1").data, ("eu-central-2").data,
   ("eu-north-1").data, ("eu-south-1").data, ("eu-south-2").data,
   ("eu-west-1").data, ("eu-west-2").data, ("eu-west-3").data,
   ("il-central-1").data, ("me-central-1").data, ("me-south-1").data,
   ("sa-east-1").data, ("us-east-1").data, ("us-east-2").data,
   ("us-west-1").data, ("us-west-2").data]

/-- Any string outside the 29-entry table falls through every match arm
and produces the unknown-region error carrying the input verbatim. -/
theorem regionTryFrom_not_mem {s : Str} (hnot : s ∉ allRegionStrs) :
    regionTryFrom s = .error ⟨s⟩ := by
  unfold regionTryFrom
  rw [if_neg (show ¬s = ("af-south-1").data from fun h => hnot (by rw [h]; decide))]
  rw [if_neg (show ¬s = ("ap-east-1").data from fun h => hnot (by rw [h]; decide))]
  rw [if_neg (show ¬s = ("ap-northeast-1").data from fun h => hnot (by rw [h]; decide))]
  rw [if_neg (show ¬s = ("ap-northeast-2").data from fun h => hnot (by rw [h]; decide))]
  rw [if_neg (show ¬s = ("ap-northeast-3").data from fun h => hnot (by rw [h]; decide))]
  rw [if_neg (show ¬s = ("ap-south-1").data from fun h => hnot (by rw [h]; decide))]
  rw [if_neg (show ¬s = ("ap-south-2").data from fun h => hnot (by rw [h]; decide))]
  rw [if_neg (show ¬s = ("ap-southeast-1").data from fun h => hnot (by rw [h]; decide))]
  rw [if_neg (show ¬s = ("ap-southeast-2").data from fun h => hnot (by rw [h]; decide))]
  rw [if_neg (show ¬s = ("ap-southeast-3").data from fun h => hnot (by rw [h]; decide))]
  rw [if_neg (show ¬s = ("ap-southeast-4").data from fun h => hnot (by rw [h]; decide))]
  rw [if_neg (show ¬s = ("ca-central-1").data from fun h => hnot (by rw [h]; decide))]
  rw [if_neg (show ¬s = ("ca-west-1").data from fun h => hnot (by rw [h]; decide))]
  rw [if_neg (show ¬s = ("eu-central-1").data from fun h => hnot (by rw [h]; decide))]
  rw [if_neg (show ¬s = ("eu-central-2").data from fun h => hnot (by rw [h]; decide))]
  rw [if_neg (show ¬s = ("eu-north-1").data from fun h => hnot (by rw [h]; decide))]
  rw [if_neg (show ¬s = ("eu-south-1").data from fun h => hnot (by rw [h]; decide))]
  rw [if_neg (show ¬s = ("eu-south-2").data from fun h => hnot (by rw [h]; decide))]
  rw [if_neg (show ¬s = ("eu-west-1").data from fun h => hnot (by rw [h]; decide))]
  rw [if_neg (show ¬s = ("eu-west-2").data from fun h => hnot (by rw [h]; decide))]
  rw [if_neg (show ¬s = ("eu-west-3").data from fun h => hnot (by rw [h]; decide))]
  rw [if_neg (show ¬s = ("il-central-1").data from fun h => hnot (by rw [h]; decide))]
  rw [if_neg (show ¬s = ("me-central-1").data from fun h => hnot (by rw [h]; decide))]
  rw [if_neg (show ¬s = ("me-south-1").data from fun h => hnot (by rw [h]; decide))]
  rw [if_neg (show ¬s = ("sa-east-1").data from fun h => hnot (by rw [h]; decide))]
  rw [if_neg (show ¬s = ("us-east-1").data from fun h => hnot (by rw [h]; decide))]
  rw [if_neg (show ¬s = ("us-east-2").data from fun h => hnot (by rw [h]; decide))]
  rw [if_neg (show ¬s = ("us-west-1").data from fun h => hnot (by rw [h]; decide))]
  rw [if_neg (show ¬s = ("us-west-2").data from fun h => hnot (by rw [h]; decide))]

/-- Every string in the table parses to a region value that renders back
to the same string. -/
theorem regionTryFrom_mem : ∀ s ∈ allRegionStrs,
    ∃ r, regionTryFrom s = .ok r ∧ regionToStr r = s := by decide

/-- Parsing the rendering of any region value returns that value. -/
theorem regionTryFrom_regionToStr : ∀ r : AwsRegionId,
    regionTryFrom (regionToStr r) = .ok r := by decide

/-- C1: for every resource kind and every suffix of exactly 8 or exactly 17
ASCII-alphanumeric characters, parsing the kind's prefix concatenated with
the suffix succeeds, and formatting the resulting value returns exactly
that input string; moreover formatting is the exact right inverse of
parsing on every value parsing can produce. -/
theorem parse_format_roundtrip :
    ∀ k ∈ allKinds,
      (∀ sfx : Str, sfx.all isAsciiAlphanumeric = true →
        (sfx.length = 8 ∨ sfx.length = 17) →
        ∃ r, tryFrom k (k.pfx ++ sfx) = .ok r ∧ display k r = k.pfx ++ sfx)
      ∧ (∀ s : Str, ∀ r : ResourceId, tryFrom k s = .ok r → display k r = s) := by
  intro k _
  constructor
  · intro sfx hall hlen
    have h1 : (k.pfx ++ sfx).take k.pfx.length = k.pfx := List.take_left k.pfx sfx
    have h2 : (k.pfx ++ sfx).drop k.pfx.length = sfx := List.drop_left k.pfx sfx
    rcases hlen with h8 | h17
    · have hok := tryFrom_ok8 (k := k) (s := k.pfx ++ sfx) h1
        (by rw [h2]; exact hall) (by rw [h2]; exact h8)
      exact ⟨_, hok, tryFrom_ok_display hok⟩
    · have hok := tryFrom_ok17 (k := k) (s := k.pfx ++ sfx) h1
        (by rw [h2]; exact hall) (by rw [h2]; exact h17)
      exact ⟨_, hok, tryFrom_ok_display hok⟩
  · intro s r h
    exact tryFrom_ok_display h

/-- Witness for C1: the AMI kind at input `ami-1234abcd`. -/
theorem parse_format_roundtrip_witness :
    display AwsAmiId ⟨ .C8 ((("1234abcd").data).map Char.toNat)⟩ = ("ami-1234abcd").data :=
  (parse_format_roundtrip AwsAmiId (by decide)).2 (("ami-1234abcd").data)
    ⟨ .C8 ((("1234abcd").data).map Char.toNat)⟩ (by decide)

/-- C2: for every resource kind, parsing fails exactly as specified — a
non-matching prefix gives `WrongPrefix` with the expected prefix, a
matching prefix with a non-ASCII-alphanumeric suffix character gives
`NonAsciiAlphanumeric`, a matching prefix with a clean suffix of length
other than 8 or 17 gives `IdLength` with the actual suffix length, and
every other input succeeds with a value. -/
theorem parse_error_cases :
    ∀ k ∈ allKinds, ∀ s : Str,
      (s.take k.pfx.length ≠ k.pfx →
        tryFrom k s = .error ⟨k.shortName, s, .WrongPrefix k.pfx⟩)
      ∧ (s.take k.pfx.length = k.pfx →
          ¬ (s.drop k.pfx.length).all isAsciiAlphanumeric = true →
          tryFrom k s = .error ⟨k.shortName, s, .NonAsciiAlphanumeric⟩)
      ∧ (s.take k.pfx.length = k.pfx →
          (s.drop k.pfx.length).all isAsciiAlphanumeric = true →
          (s.drop k.pfx.length).length ≠ 8 →
          (s.drop k.pfx.length).length ≠ 17 →
          tryFrom k s = .error ⟨k.shortName, s, .IdLength (s.drop k.pfx.length).length⟩)
      ∧ (s.take k.pfx.length = k.pfx →
          (s.drop k.pfx.length).all isAsciiAlphanumeric = true →
          ((s.drop k.pfx.length).length = 8 ∨ (s.drop k.pfx.length).length = 17) →
          ∃ r, tryFrom k s = .ok r) := by
  intro k _ s
  refine ⟨tryFrom_wrongPre, tryFrom_nonAscii, tryFrom_badLen, ?_⟩
  intro h1 h2 hlen
  rcases hlen with h8 | h17
  · exact ⟨_, tryFrom_ok8 h1 h2 h8⟩
  · exact ⟨_, tryFrom_ok17 h1 h2 h17⟩

/-- Witness for C2: the AMI kind rejects a 7-character suffix with
`IdLength 7`, matching the crate's own `test_error_wrong_length`. -/
theorem parse_error_cases_witness :
    tryFrom AwsAmiId ("ami-1234567").data =
      .error ⟨("AwsAmiId").data, ("ami-1234567").data, .IdLength 7⟩ :=
  ((parse_error_cases AwsAmiId (by decide) (("ami-1234567").data)).2.2.1
    (by decide) (by decide) (by decide) (by decide)).trans (by decide)

/-- C3: the alphabet check runs before the length check — when the suffix
both contains a non-ASCII-alphanumeric character and has a length that is
neither 8 nor 17, the reported error is `NonAsciiAlphanumeric`, not
`IdLength`. -/
theorem alphabet_before_length :
    ∀ k ∈ allKinds, ∀ s : Str,
      s.take k.pfx.length = k.pfx →
      ¬ (s.drop k.pfx.length).all isAsciiAlphanumeric = true →
      (s.drop k.pfx.length).length ≠ 8 →
      (s.drop k.pfx.length).length ≠ 17 →
      tryFrom k s = .error ⟨k.shortName, s, .NonAsciiAlphanumeric⟩ := by
  intro k _ s h1 h2 _ _
  exact tryFrom_nonAscii h1 h2

/-- Witness for C3: against the `tgw-` kind, input `tgw-attach-1234abcd`
has a 15-character suffix containing hyphens, failing both checks; the
reported detail is the alphabet error. -/
theorem alphabet_before_length_witness :
    tryFrom AwsTransitGatewayId ("tgw-attach-1234abcd").data =
      .error ⟨("AwsTransitGatewayId").data, ("tgw-attach-1234abcd").data, .NonAsciiAlphanumeric⟩ :=
  alphabet_before_length AwsTransitGatewayId (by decide) (("tgw-attach-1234abcd").data)
    (by decide) (by decide) (by decide) (by decide)

/-- C4: region parsing is closed over exactly the 29 listed strings —
parsing succeeds precisely on the members of the table, and any other
string (near-misses included) fails with the unknown-region error carrying
the offending input verbatim. -/
theorem region_closure :
    ∀ s : Str,
      ((∃ r, regionTryFrom s = .ok r) ↔ s ∈ allRegionStrs)
      ∧ (s ∉ allRegionStrs → regionTryFrom s = .error ⟨s⟩) := by
  intro s
  constructor
  · constructor
    · rintro ⟨r, hr⟩
      by_contra hnot
      rw [regionTryFrom_not_mem hnot] at hr
      exact absurd hr (by simp)
    · intro hmem
      obtain ⟨r, hr, -⟩ := regionTryFrom_mem s hmem
      exact ⟨r, hr⟩
  · exact regionTryFrom_not_mem

/-- Witness for C4: the unknown code `us-north-1` is rejected with the
error carrying the input verbatim. -/
theorem region_closure_witness :
    regionTryFrom ("us-north-1").data = .error ⟨("us-north-1").data⟩ :=
  (region_closure (("us-north-1").data)).2 (by decide)

/-- C5: the region round-trip is a bijection — formatting any of the 29
enum values and parsing the result returns the same value, and parsing any
of the 29 canonical strings and formatting the result is the identity. -/
theorem region_bijection :
    (∀ r : AwsRegionId, regionTryFrom (regionToStr r) = .ok r)
    ∧ (∀ s ∈ allRegionStrs, ∃ r, regionTryFrom s = .ok r ∧ regionToStr r = s) :=
  ⟨regionTryFrom_regionToStr, regionTryFrom_mem⟩

/-- Witness for C5: the round-trip at `UsEast1`. -/
theorem region_bijection_witness :
    regionTryFrom (regionToStr AwsRegionId.UsEast1) = .ok AwsRegionId.UsEast1 :=
  region_bijection.1 AwsRegionId.UsEast1

/-- C6: every value the validating constructor produces satisfies the
invariant — its unique part is exactly 8 or exactly 17 bytes long
(matching its variant) and every byte is ASCII alphanumeric.  Values are
immutable terms, so the invariant holds forever, and `tryFrom` (to which
the `String`, `&String` and `FromStr` entry points delegate) is the only
public constructor. -/
theorem constructed_values_wf :
    ∀ k ∈ allKinds, ∀ s : Str, ∀ r : ResourceId,
      tryFrom k s = .ok r → r.uniquePart.WF := by
  intro k _ s r h
  exact tryFrom_ok_wf h

/-- Witness for C6: the value parsed from `ami-1234abcd` is well-formed. -/
theorem constructed_values_wf_witness :
    (ResourceId.mk ( .C8 ((("1234abcd").data).map Char.toNat))).uniquePart.WF :=
  constructed_values_wf AwsAmiId (by decide) (("ami-1234abcd").data)
    (ResourceId.mk ( .C8 ((("1234abcd").data).map Char.toNat))) (by decide)

/-- C7: on well-formed unique parts, the derived ordering is length-first —
equal lengths compare lexicographically byte-wise, and an 8-byte unique
part orders strictly before a 17-byte one regardless of content. -/
theorem derived_order_spec :
    ∀ a b : UniquePart, a.WF → b.WF →
      UniquePart.cmp a b = orderingSpec a b
      ∧ (a.asSlice.length = 8 → b.asSlice.length = 17 → UniquePart.cmp a b = .lt) := by
  intro a b ha hb
  cases a <;> cases b <;>
    simp only [UniquePart.WF] at ha hb <;>
    simp [UniquePart.cmp, orderingSpec, UniquePart.asSlice, ha.1, hb.1]

/-- Witness for C7: an 8-byte unique part of all `z` bytes still orders
strictly before a 17-byte unique part of all `0` bytes. -/
theorem derived_order_spec_witness :
    UniquePart.cmp ( .C8 [122, 122, 122, 122, 122, 122, 122, 122])
      ( .C17 [48, 48, 48, 48, 48, 48, 48, 48, 48, 48, 48, 48, 48, 48, 48, 48, 48]) = .lt :=
  (derived_order_spec ( .C8 [122, 122, 122, 122, 122, 122, 122, 122])
      ( .C17 [48, 48, 48, 48, 48, 48, 48, 48, 48, 48, 48, 48, 48, 48, 48, 48, 48])
      ⟨by decide, by decide⟩ ⟨by decide, by decide⟩).2 (by decide) (by decide)

/-- C8: every parse failure carries the short name of the target kind, the
offending input verbatim, and the failed sub-condition with its data, and
its rendered message has exactly the shape
`failed to initialize <Kind> from "<input>": <reason-text>`. -/
theorem error_context_and_message :
    ∀ k ∈ allKinds, ∀ s : Str, ∀ e : GeneralResourceError,
      tryFrom k s = .error e →
      e.targetType = k.shortName ∧ e.input = s
      ∧ e.message = ("failed to initialize ").data ++ k.shortName
          ++ (" from \"").data ++ s ++ ("\": ").data ++ e.errorDetail.message
      ∧ (e.errorDetail = .WrongPrefix k.pfx
         ∨ e.errorDetail = .NonAsciiAlphanumeric
         ∨ e.errorDetail = .IdLength (s.drop k.pfx.length).length) := by
  intro k _ s e h
  obtain ⟨h1, h2, h3⟩ := tryFrom_error_shape h
  refine ⟨h1, h2, ?_, h3⟩
  unfold GeneralResourceError.message
  rw [h1, h2]

/-- Witness for C8: the rendered wrong-prefix message at the AMI kind
matches the crate's own `test_wrong_prefix` expectation character for
character. -/
theorem error_context_and_message_witness :
    (GeneralResourceError.mk (("AwsAmiId").data) (("amx-12345678").data)
        ( .WrongPrefix ("ami-").data)).message
      = ("failed to initialize AwsAmiId from \"amx-12345678\": incorrect prefix, expected \"ami-\"").data :=
  ((error_context_and_message AwsAmiId (by decide) (("amx-12345678").data)
      ⟨("AwsAmiId").data, ("amx-12345678").data, .WrongPrefix ("ami-").data⟩
      (by decide)).2.2.1).trans (by decide)

/-- C9: construction never panics — for every kind and every input string
(arbitrary unicode content) `tryFrom` is total, returning a success value
or a structured error; the slice at the prefix boundary is in bounds
whenever it is taken, the stored array length always equals the suffix
length, and the owned-`String`, `&String` and `FromStr` entry points agree
with the `&str` one. -/
theorem parse_total_entry_points :
    ∀ k ∈ allKinds, ∀ s : Str,
      ((∃ r, tryFrom k s = .ok r) ∨ (∃ e, tryFrom k s = .error e))
      ∧ (s.take k.pfx.length = k.pfx → k.pfx.length ≤ s.length)
      ∧ (∀ r, tryFrom k s = .ok r →
          r.uniquePart.asSlice.length = (s.drop k.pfx.length).length)
      ∧ tryFromString k s = tryFrom k s
      ∧ tryFromRefString k s = tryFrom k s
      ∧ fromStr k s = tryFrom k s := by
  intro k _ s
  refine ⟨?_, ?_, ?_, rfl, rfl, rfl⟩
  · cases h : tryFrom k s with
    | ok r => exact Or.inl ⟨r, rfl⟩
    | error e => exact Or.inr ⟨e, rfl⟩
  · intro h1
    have hlen := congrArg List.length h1
    rw [List.length_take] at hlen
    omega
  · intro r h
    obtain ⟨-, -, hcase⟩ := tryFrom_ok_shape h
    rcases hcase with ⟨-, rfl⟩ | ⟨-, rfl⟩ <;> simp [UniquePart.asSlice]

/-- Witness for C9: the in-bounds fact at the AMI kind and a matching
input. -/
theorem parse_total_entry_points_witness :
    AwsAmiId.pfx.length ≤ (("ami-1234abcd").data).length :=
  (parse_total_entry_points AwsAmiId (by decide) (("ami-1234abcd").data)).2.1 (by decide)

/-- C10: formatting is injective per kind — two values of one kind parsed
from any inputs are equal exactly when their formatted strings are
equal. -/
theorem display_injective :
    ∀ k ∈ allKinds, ∀ s1 s2 : Str, ∀ r1 r2 : ResourceId,
      tryFrom k s1 = .ok r1 → tryFrom k s2 = .ok r2 →
      (display k r1 = display k r2 ↔ r1 = r2) := by
  intro k _ s1 s2 r1 r2 h1 h2
  constructor
  · intro hd
    rw [tryFrom_ok_display h1, tryFrom_ok_display h2] at hd
    rw [hd] at h1
    rw [h1] at h2
    injection h2
  · intro he
    rw [he]

/-- Witness for C10: the displayed-equality criterion at two parses of
`ami-1234abcd`. -/
theorem display_injective_witness :
    (display AwsAmiId ⟨ .C8 ((("1234abcd").data).map Char.toNat)⟩
        = display AwsAmiId ⟨ .C8 ((("1234abcd").data).map Char.toNat)⟩)
      ↔ (ResourceId.mk ( .C8 ((("1234abcd").data).map Char.toNat))
          = ResourceId.mk ( .C8 ((("1234abcd").data).map Char.toNat))) :=
  display_injective AwsAmiId (by decide) (("ami-1234abcd").data) (("ami-1234abcd").data)
    ⟨ .C8 ((("1234abcd").data).map Char.toNat)⟩ ⟨ .C8 ((("1234abcd").data).map Char.toNat)⟩
    (by decide) (by decide)
